import Mathlib

/-!
# Verification of the DevOps-Challenge metrics instrumentation

Shallow embedding of the Prometheus instrumentation code of the repository:

* `prometheus-functions/prometheus/outcomes.py` — context-deduplicated outcome
  tracker (`mark_success`, `mark_failure`, `mark_latency`, `reset_outcome`);
* `prometheus-functions/prometheus/prometheus.py` — `CounterMiddleware`,
  `GaugeMiddleware` and `_get_normalized_endpoint`;
* `vm-agents/app/prometheus/outcomes.py` — the non-deduplicating variant;
* `vm-agents/app/prometheus/prometheus.py` — the variant middlewares;
* `vm_agents/api.py` — `PrometheusMiddleware`;
* bucket declarations of `prometheus-functions/prometheus/functions.py` and
  `prometheus-functions/prometheus/prometheus.py`.

Python exceptions are modelled with `Except`: a call that may raise is given a
Boolean oracle saying whether the underlying metric operation raises, and a
`try/except Exception: pass` block is the `tryPass` combinator that maps any
error to the state the block was entered with (a failing instrument update is
taken to leave the instrument unchanged).  Counters are total maps from label
values to `Nat`, the active-requests gauge a map to `Int`, histogram series
lists of observations in `ℚ`.
-/

/-- A Python exception value (only its identity matters to the embedding). -/
inductive PyErr where
  | exc : String → PyErr
deriving DecidableEq, Repr

/-- An HTTP response as the middlewares see it: only `status_code` is read. -/
structure Response where
  statusCode : Nat
deriving DecidableEq, Repr

/-- A matched route object.  `path` is `some p` when the object has a `path`
attribute (the `hasattr(route, 'path')` test of the source), `none` otherwise. -/
structure Route where
  path : Option String
deriving DecidableEq, Repr

/-- The parts of a FastAPI/Starlette request the instrumentation reads:
`request.method`, `request.scope.get('route')`, `request.scope.get('path')`
(absent key modelled as `none`) and `request.url.path`. -/
structure ScopeReq where
  method : String
  route : Option Route
  scopePath : Option String
  urlPath : String
deriving DecidableEq, Repr

/-- A `try: ... except Exception: pass` block around a state-producing block: an error
recovers to the fallback state `s` (the state at entry). -/
def tryPass {σ : Type} (r : Except Unit σ) (s : σ) : Except Unit σ :=
  match r with
  | .ok t => .ok t
  | .error _ => .ok s

/-- Point update of a two-label counter family (`labels(a, b).inc()`). -/
def bumpCalls (g : String → String → Nat) (a b : String) : String → String → Nat :=
  fun x y => if x = a ∧ y = b then g x y + 1 else g x y

/-- Point update of a three-label counter family (`labels(a, b, c).inc()`). -/
def bump3 (g : String → String → String → Nat) (a b c : String) :
    String → String → String → Nat :=
  fun x y z => if x = a ∧ y = b ∧ z = c then g x y z + 1 else g x y z

/-- Point update of a one-label gauge family by a signed delta. -/
def bumpGauge (g : String → Int) (k : String) (d : Int) : String → Int :=
  fun x => if x = k then g x + d else g x

/-- The state a non-raising `Except`-valued block produced (fallback `s` is
never reached for the guarded operations, see claim C2). -/
def stateOf {σ : Type} (r : Except Unit σ) (s : σ) : σ :=
  match r with
  | .ok t => t
  | .error _ => s

namespace PFOutcomes

/-!
Embedding of `src/prometheus-functions/prometheus/outcomes.py`.

The module state is the `_outcomes_marked` context variable (default `None`,
holding a set of `(function_name, outcome)` pairs once initialised, modelled as
a duplicate-free-by-use list), the `LLM_CALLS` counter keyed by
`(function, status)` and the `LLM_LATENCY` histogram keyed by `function`.
-/

/-- An `(function_name, outcome)` key of the `_outcomes_marked` set. -/
abbrev OutcomeKey := String × String

/-- State touched by the outcome tracker of `prometheus-functions`. -/
structure TrackerState where
  marked : Option (List OutcomeKey)
  llmCalls : String → String → Nat
  llmLatency : String → List ℚ

/-- The tracked set of the current context: `_outcomes_marked.get()` with the
`None` default replaced by an empty set, as both branches of the source do. -/
def markedOf (s : TrackerState) : List OutcomeKey := s.marked.getD []

/-- The shared body of `mark_success`/`mark_failure` (the source repeats it
verbatim for the async and the sync branch and for the two statuses): build
the key, fetch the set (fresh if `None`), return early if already recorded,
increment `LLM_CALLS.labels(function=f, status=status)` — which may raise,
`incRaises` is the oracle — then add the key and store the set back. -/
def markOutcomeBody (status : String) (f : String) (incRaises : Bool)
    (s : TrackerState) : Except Unit TrackerState :=
  let key : OutcomeKey := (f, status)
  let m := markedOf s
  if key ∈ m then .ok s
  else if incRaises then .error ()
  else .ok { s with marked := some (key :: m),
                    llmCalls := bumpCalls s.llmCalls f status }

/-- Body of `mark_latency`: `LLM_LATENCY.labels(function=f).observe(d)`,
which may raise (`obsRaises`). -/
def latencyBody (f : String) (d : ℚ) (obsRaises : Bool) (s : TrackerState) :
    Except Unit TrackerState :=
  if obsRaises then .error ()
  else .ok { s with llmLatency := fun x =>
              if x = f then d :: s.llmLatency x else s.llmLatency x }

/-- Body of `reset_outcome`: `_outcomes_marked.set(set())`. -/
def resetBody (s : TrackerState) : Except Unit TrackerState :=
  .ok { s with marked := some [] }

/-- Function `mark_success` with its full exception structure: an outer
`try/except Exception: pass`, the `if _is_async_context():` branch (`isAsync`),
and in each branch an inner `try/except Exception: pass` around the body. -/
def mark_successE (isAsync incRaises : Bool) (f : String) (s : TrackerState) :
    Except Unit TrackerState :=
  tryPass
    (if isAsync then tryPass (markOutcomeBody "success" f incRaises s) s
     else tryPass (markOutcomeBody "success" f incRaises s) s) s

/-- Function `mark_failure`, structured exactly as `mark_successE` with status
`"failed"`. -/
def mark_failureE (isAsync incRaises : Bool) (f : String) (s : TrackerState) :
    Except Unit TrackerState :=
  tryPass
    (if isAsync then tryPass (markOutcomeBody "failed" f incRaises s) s
     else tryPass (markOutcomeBody "failed" f incRaises s) s) s

/-- Function `mark_latency` with its exception structure. -/
def mark_latencyE (isAsync obsRaises : Bool) (f : String) (d : ℚ)
    (s : TrackerState) : Except Unit TrackerState :=
  tryPass
    (if isAsync then tryPass (latencyBody f d obsRaises s) s
     else tryPass (latencyBody f d obsRaises s) s) s

/-- Function `reset_outcome` with its exception structure. -/
def reset_outcomeE (isAsync : Bool) (s : TrackerState) :
    Except Unit TrackerState :=
  tryPass
    (if isAsync then tryPass (resetBody s) s
     else tryPass (resetBody s) s) s

/-- The state `mark_success` leaves behind (it never raises, see claim C2). -/
def mark_success (isAsync incRaises : Bool) (f : String) (s : TrackerState) :
    TrackerState :=
  stateOf (mark_successE isAsync incRaises f s) s

/-- The state `mark_failure` leaves behind. -/
def mark_failure (isAsync incRaises : Bool) (f : String) (s : TrackerState) :
    TrackerState :=
  stateOf (mark_failureE isAsync incRaises f s) s

/-- The state `mark_latency` leaves behind. -/
def mark_latency (isAsync obsRaises : Bool) (f : String) (d : ℚ)
    (s : TrackerState) : TrackerState :=
  stateOf (mark_latencyE isAsync obsRaises f d s) s

/-- The state `reset_outcome` leaves behind. -/
def reset_outcome (isAsync : Bool) (s : TrackerState) : TrackerState :=
  stateOf (reset_outcomeE isAsync s) s

end PFOutcomes

/-!
Embedding of `_get_normalized_endpoint` (identical in
`src/prometheus-functions/prometheus/prometheus.py` and
`src/vm-agents/app/prometheus/prometheus.py`):

```
route = request.scope.get('route')
if route and hasattr(route, 'path'):
    return route.path
return request.scope.get('path', '/')
```
A route object is truthy whenever present; `hasattr(route, 'path')` is the
`Option` in `Route.path`.
-/

/-- The function `_get_normalized_endpoint(request)`. -/
def getNormalizedEndpoint (req : ScopeReq) : String :=
  match req.route with
  | some r =>
      match r.path with
      | some p => p
      | none => req.scopePath.getD "/"
  | none => req.scopePath.getD "/"

namespace PFProm

/-!
Embedding of the middlewares of
`src/prometheus-functions/prometheus/prometheus.py`.  The inner handler
(`await call_next(request)`) is a parameter `inner : Except PyErr Response`;
the oracles say whether a metric-recording call raises.  A dispatch returns
the metric state it leaves behind together with its outcome (`.error e`
models re-raising `e` to the caller).
-/

/-- Method `CounterMiddleware.dispatch`: on a normal response, resolve the endpoint
and increment `REQUEST_TOTAL` (guarded, `incRaises` oracle) with the response's
status code; on an exception from `call_next`, set the status to 500, resolve
the endpoint, increment `REQUEST_TOTAL` with `"500"` (guarded), and re-raise
the original exception. -/
def counterDispatch (incRaises : Bool) (req : ScopeReq)
    (inner : Except PyErr Response)
    (requestTotal : String → String → String → Nat) :
    (String → String → String → Nat) × Except PyErr Response :=
  match inner with
  | .error e =>
      let endpoint := getNormalizedEndpoint req
      let c := if incRaises then requestTotal
               else bump3 requestTotal req.method endpoint "500"
      (c, .error e)
  | .ok r =>
      let endpoint := getNormalizedEndpoint req
      let c := if incRaises then requestTotal
               else bump3 requestTotal req.method endpoint (toString r.statusCode)
      (c, .ok r)

/-- Method `GaugeMiddleware.dispatch`: guarded `ACTIVE_REQUESTS.labels(endpoint="all").inc()`,
then `call_next` inside `try: ... finally:` with a guarded
`ACTIVE_REQUESTS.labels(endpoint="all").dec()` that runs on the normal and on
the raising path alike. -/
def gaugeDispatch (incRaises decRaises : Bool) (inner : Except PyErr Response)
    (active : String → Int) : (String → Int) × Except PyErr Response :=
  let g1 := if incRaises then active else bumpGauge active "all" 1
  let g2 := if decRaises then g1 else bumpGauge g1 "all" (-1)
  (g2, inner)

end PFProm

namespace VAOutcomes

/-!
Embedding of `src/vm-agents/app/prometheus/outcomes.py`: no context variable,
no deduplication; each function is one `try: ... except Exception as e:
logger.error(...); pass` around the metric call, and `reset_outcome` is a
bare `pass`.
-/

/-- State touched by the vm-agents outcome functions: the `LLM_CALLS` counter
and the `LLM_LATENCY` histogram of `prometheus/functions.py`. -/
structure VaState where
  llmCalls : String → String → Nat
  llmLatency : String → List ℚ

/-- Function `mark_success`: unconditional guarded
`LLM_CALLS.labels(function=f, status="success").inc()`. -/
def mark_successE (incRaises : Bool) (f : String) (t : VaState) :
    Except Unit VaState :=
  tryPass
    (if incRaises then .error ()
     else .ok { t with llmCalls := bumpCalls t.llmCalls f "success" }) t

/-- Function `mark_failure`: unconditional guarded
`LLM_CALLS.labels(function=f, status="failure").inc()`. -/
def mark_failureE (incRaises : Bool) (f : String) (t : VaState) :
    Except Unit VaState :=
  tryPass
    (if incRaises then .error ()
     else .ok { t with llmCalls := bumpCalls t.llmCalls f "failure" }) t

/-- Function `mark_latency`: guarded `LLM_LATENCY.labels(function=f).observe(d / 1000)`
(the argument is in milliseconds, the observation in seconds). -/
def mark_latencyE (obsRaises : Bool) (f : String) (d : ℚ) (t : VaState) :
    Except Unit VaState :=
  tryPass
    (if obsRaises then .error ()
     else .ok { t with llmLatency := fun x =>
                 if x = f then (d / 1000) :: t.llmLatency x else t.llmLatency x }) t

/-- Function `reset_outcome`: `pass` — no state is read or written. -/
def reset_outcomeE (t : VaState) : Except Unit VaState := .ok t

/-- The state `mark_success` leaves behind. -/
def mark_success (incRaises : Bool) (f : String) (t : VaState) : VaState :=
  stateOf (mark_successE incRaises f t) t

/-- The state `mark_failure` leaves behind. -/
def mark_failure (incRaises : Bool) (f : String) (t : VaState) : VaState :=
  stateOf (mark_failureE incRaises f t) t

/-- The state `mark_latency` leaves behind. -/
def mark_latency (obsRaises : Bool) (f : String) (d : ℚ) (t : VaState) :
    VaState :=
  stateOf (mark_latencyE obsRaises f d t) t

/-- The state `reset_outcome` leaves behind. -/
def reset_outcome (t : VaState) : VaState := stateOf (reset_outcomeE t) t

end VAOutcomes

namespace VAProm

/-!
Embedding of `CounterMiddleware.dispatch` of
`src/vm-agents/app/prometheus/prometheus.py`:

```
response = await call_next(request)
endpoint = _get_normalized_endpoint(request)
REQUEST_TOTAL.labels(method, endpoint, str(response.status_code)).inc()
return response
```
There is no `try` block: an exception from `call_next` propagates out of
`dispatch` before any counter is touched.
-/

/-- vm-agents `CounterMiddleware.dispatch`. -/
def counterDispatch (req : ScopeReq) (inner : Except PyErr Response)
    (requestTotal : String → String → String → Nat) :
    (String → String → String → Nat) × Except PyErr Response :=
  match inner with
  | .error e => (requestTotal, .error e)
  | .ok r =>
      let endpoint := getNormalizedEndpoint req
      (bump3 requestTotal req.method endpoint (toString r.statusCode), .ok r)

end VAProm

namespace ApiMw

/-!
Embedding of `PrometheusMiddleware.dispatch` of `src/vm_agents/api.py`:

```
endpoint = route.path if route and hasattr(route, 'path') else request.url.path
ACTIVE_REQUESTS.labels(endpoint).inc()
try:
    response = await call_next(request)
    status_code = response.status_code
except Exception as e:
    ACTIVE_REQUESTS.labels(endpoint).dec()
    raise
finally:
    ACTIVE_REQUESTS.labels(endpoint).dec()
REQUEST_TOTAL.labels(method, endpoint, status_code).inc()
REQUEST_DURATION.labels(method, endpoint).observe(duration_ms)
return response
```
On the raising path the gauge is decremented in the `except` branch and then
again by the `finally` block as the re-raise passes through it; the
`REQUEST_TOTAL`/`REQUEST_DURATION` lines after the `try` statement are never
reached.  `durationMs` stands for the measured wall-clock time.
-/

/-- State of the three instruments `api.py` touches. -/
structure ApiState where
  active : String → Int
  requestTotal : String → String → String → Nat
  durations : String → String → List ℚ

/-- Method `PrometheusMiddleware.dispatch`. -/
def dispatch (req : ScopeReq) (inner : Except PyErr Response) (durationMs : ℚ)
    (s : ApiState) : ApiState × Except PyErr Response :=
  let endpoint :=
    match req.route with
    | some r => r.path.getD req.urlPath
    | none => req.urlPath
  let a1 := bumpGauge s.active endpoint 1
  match inner with
  | .error e =>
      let a2 := bumpGauge a1 endpoint (-1)
      let a3 := bumpGauge a2 endpoint (-1)
      ({ s with active := a3 }, .error e)
  | .ok r =>
      let a2 := bumpGauge a1 endpoint (-1)
      ({ active := a2,
         requestTotal := bump3 s.requestTotal req.method endpoint
                           (toString r.statusCode),
         durations := fun m ep =>
           if m = req.method ∧ ep = endpoint then durationMs :: s.durations m ep
           else s.durations m ep },
       .ok r)

end ApiMw

namespace SpecReg

/-!
Modelled from the spec: `CollectorRegistry` and the label-series storage of
`Counter` live in the external `prometheus_client` library and are not part of
the repository source; this model follows spec sections 3 and 4.1 — a
`MetricRegistry` is a mapping from metric name to instrument, every instrument
belongs to exactly one registry, counter series are created lazily on first
increment, and `collect()` is a point-in-time snapshot of the registry's own
instruments.  The repository constructs distinct registries
(`CollectorRegistry()` in `src/vm_agents/main.py` and
`src/vm_agents/prometheus/functions.py`, `GLOBAL_REGISTRY` in
`src/vm-agents/app/prometheus/registry.py`), each holding its own instruments.
-/

/-- A counter instrument's state: label key to accumulated value. -/
abbrev Series := List (String × Nat)

/-- A registry: metric name to counter instrument state. -/
structure Registry where
  instruments : List (String × Series)
deriving DecidableEq, Repr

/-- Increment the series `label` of a counter series map, creating the entry
lazily on first use. -/
def incSeries (label : String) : Series → Series
  | [] => [(label, 1)]
  | (k, v) :: rest =>
      if k = label then (k, v + 1) :: rest else (k, v) :: incSeries label rest

/-- Operation `Counter.labels(label).inc()` on the instrument `metric` of one registry. -/
def counterInc (metric label : String) (r : Registry) : Registry :=
  ⟨r.instruments.map fun nv =>
    if nv.1 = metric then (nv.1, incSeries label nv.2) else nv⟩

/-- Operation `collect()` / `generate_latest(registry)`: a snapshot of the registry's own
instruments and nothing else. -/
def collect (r : Registry) : List (String × Series) := r.instruments

/-- Two isolated registries living in one process, as in the scenario of
spec section 8. -/
structure TwoRegs where
  regA : Registry
  regB : Registry
deriving DecidableEq, Repr

/-- An increment performed on an instrument registered in registry `B`. -/
def incB (metric label : String) (st : TwoRegs) : TwoRegs :=
  { st with regB := counterInc metric label st.regB }

/-- Run a sequence of `(metric, label)` increments, all against registry `B`. -/
def runIncB (ops : List (String × String)) (st : TwoRegs) : TwoRegs :=
  ops.foldl (fun t p => incB p.1 p.2 t) st

end SpecReg

namespace SpecHist

/-!
Modelled from the spec: the bucket/sum/count bookkeeping of
`Histogram.observe` lives in the external `prometheus_client` library and is
not part of the repository source; this model follows spec sections 3 and 4.2
— a histogram holds a fixed, monotonically increasing sequence of bucket upper
bounds with a cumulative count per bucket, a running sum and a total count,
and observing `v` increments every bucket whose bound is `≥ v`, adds `v` to
the sum and `1` to the count.  The repository declares the bucket sequences
`(0.1, 0.5, 1.0, 2.5, 5.0, 7.0, 10.0)` (`LLM_LATENCY`,
`src/prometheus-functions/prometheus/functions.py`) and
`(10, 50, 100, 250, 500, 1000, 2500, 5000, 10000)` (`REQUEST_DURATION`,
`src/prometheus-functions/prometheus/prometheus.py`).
-/

/-- One histogram series: upper bounds, cumulative per-bucket counts
(positionally aligned with `bounds`), running sum and total count. -/
structure Hist where
  bounds : List ℚ
  bucketCounts : List Nat
  sum : ℚ
  count : Nat
deriving DecidableEq, Repr

/-- Operation `Histogram.observe(v)` per spec section 4.2. -/
def observe (v : ℚ) (h : Hist) : Hist :=
  { h with
    bucketCounts :=
      List.zipWith (fun b c => if v ≤ b then c + 1 else c) h.bounds h.bucketCounts,
    sum := h.sum + v,
    count := h.count + 1 }

/-- The `buckets=(0.1, 0.5, 1.0, 2.5, 5.0, 7.0, 10.0)` declaration of
`LLM_LATENCY` in `src/prometheus-functions/prometheus/functions.py`. -/
def llmLatencyBuckets : List ℚ := [1/10, 1/2, 1, 5/2, 5, 7, 10]

/-- The `buckets=(10, 50, 100, 250, 500, 1000, 2500, 5000, 10000)` declaration
of `REQUEST_DURATION` in `src/prometheus-functions/prometheus/prometheus.py`. -/
def requestDurationBuckets : List ℚ :=
  [10, 50, 100, 250, 500, 1000, 2500, 5000, 10000]

/-- A fresh histogram series over the given bounds. -/
def freshHist (bounds : List ℚ) : Hist :=
  { bounds := bounds,
    bucketCounts := List.replicate bounds.length 0,
    sum := 0,
    count := 0 }

end SpecHist

/-! ## Helper lemmas -/

/-- A `try/except: pass` block never yields an error. -/
theorem tryPass_ok {σ : Type} (r : Except Unit σ) (s : σ) :
    ∃ t, tryPass r s = .ok t := by
  cases r <;> exact ⟨_, rfl⟩

/-- What a non-raising `mark_success` call does: no-op when the key is already
tracked, otherwise increment the counter and track the key. -/
theorem PFOutcomes.mark_success_eq (a : Bool) (f : String)
    (s : PFOutcomes.TrackerState) :
    PFOutcomes.mark_success a false f s =
      if (f, "success") ∈ PFOutcomes.markedOf s then s
      else { s with marked := some ((f, "success") :: PFOutcomes.markedOf s),
                    llmCalls := bumpCalls s.llmCalls f "success" } := by
  cases a <;>
    simp only [PFOutcomes.mark_success, PFOutcomes.mark_successE,
      PFOutcomes.markOutcomeBody, Bool.false_eq_true, if_false, if_true] <;>
    split <;> rfl

/-- What a non-raising `mark_failure` call does. -/
theorem PFOutcomes.mark_failure_eq (a : Bool) (f : String)
    (s : PFOutcomes.TrackerState) :
    PFOutcomes.mark_failure a false f s =
      if (f, "failed") ∈ PFOutcomes.markedOf s then s
      else { s with marked := some ((f, "failed") :: PFOutcomes.markedOf s),
                    llmCalls := bumpCalls s.llmCalls f "failed" } := by
  cases a <;>
    simp only [PFOutcomes.mark_failure, PFOutcomes.mark_failureE,
      PFOutcomes.markOutcomeBody, Bool.false_eq_true, if_false, if_true] <;>
    split <;> rfl

/-- Function `reset_outcome` replaces the tracked set by a fresh empty one. -/
theorem PFOutcomes.reset_outcome_eq (a : Bool) (s : PFOutcomes.TrackerState) :
    PFOutcomes.reset_outcome a s = { s with marked := some [] } := by
  cases a <;> rfl

/-- What a non-raising vm-agents `mark_success` call does. -/
theorem VAOutcomes.va_mark_success_eq (f : String) (t : VAOutcomes.VaState) :
    VAOutcomes.mark_success false f t =
      { t with llmCalls := bumpCalls t.llmCalls f "success" } := rfl

/-- What a non-raising vm-agents `mark_failure` call does. -/
theorem VAOutcomes.va_mark_failure_eq (f : String) (t : VAOutcomes.VaState) :
    VAOutcomes.mark_failure false f t =
      { t with llmCalls := bumpCalls t.llmCalls f "failure" } := rfl

/-- Evaluating a point update at the updated point. -/
theorem bumpCalls_same (g : String → String → Nat) (a b : String) :
    bumpCalls g a b a b = g a b + 1 := by
  simp [bumpCalls]

/-! ## Claims -/

/-- Claim C1: within one context (no intervening reset), calling
`mark_success(f)` twice increments the `(f, "success")` series of `LLM_CALLS`
exactly once — the second call is a no-op; with `reset_outcome()` between the
two calls the series is incremented twice.  The hypothesis says `f`'s success
is not yet tracked in the current context (true in particular after a reset or
with the default `None` context value); `a`, `a'`, `a''` are the arbitrary
values of `_is_async_context()` at the three calls. -/
theorem claim_C1_mark_success_dedup_and_reset (a a' a'' : Bool) (f : String)
    (s : PFOutcomes.TrackerState)
    (h : (f, "success") ∉ PFOutcomes.markedOf s) :
    (PFOutcomes.mark_success a' false f
        (PFOutcomes.mark_success a false f s)).llmCalls f "success"
      = s.llmCalls f "success" + 1
  ∧ (PFOutcomes.mark_success a' false f
        (PFOutcomes.reset_outcome a''
          (PFOutcomes.mark_success a false f s))).llmCalls f "success"
      = s.llmCalls f "success" + 2 := by
  rw [PFOutcomes.mark_success_eq a f s, if_neg h]
  constructor
  · rw [PFOutcomes.mark_success_eq]
    rw [if_pos (by simp [PFOutcomes.markedOf])]
    exact bumpCalls_same ..
  · rw [PFOutcomes.reset_outcome_eq, PFOutcomes.mark_success_eq]
    rw [if_neg (by simp [PFOutcomes.markedOf])]
    simp [bumpCalls_same, bumpCalls]

/-- A tracker state with the context variable at its default `None` and all
series empty (the state at process start). -/
def trackerStart : PFOutcomes.TrackerState :=
  { marked := none, llmCalls := fun _ _ => 0, llmLatency := fun _ => [] }

/-- Witness for claim C1 at `f = "fetch_user_data"` from the start state. -/
theorem claim_C1_witness :
    (PFOutcomes.mark_success false false "fetch_user_data"
        (PFOutcomes.mark_success true false "fetch_user_data"
          trackerStart)).llmCalls "fetch_user_data" "success"
      = trackerStart.llmCalls "fetch_user_data" "success" + 1
  ∧ (PFOutcomes.mark_success false false "fetch_user_data"
        (PFOutcomes.reset_outcome false
          (PFOutcomes.mark_success true false "fetch_user_data"
            trackerStart))).llmCalls "fetch_user_data" "success"
      = trackerStart.llmCalls "fetch_user_data" "success" + 2 :=
  claim_C1_mark_success_dedup_and_reset true false false "fetch_user_data"
    trackerStart (by simp [trackerStart, PFOutcomes.markedOf])

/-- Claim C5: within one context, `mark_success(f)` followed by
`mark_failure(f)` (and vice versa) lands both increments — the outcome keys
`(f, "success")` and `(f, "failed")` are distinct, so the second mark is not
deduplicated against the first.  Hypotheses: neither outcome of `f` is tracked
yet in the current context. -/
theorem claim_C5_different_outcomes_both_land (a a' : Bool) (f : String)
    (s : PFOutcomes.TrackerState)
    (h1 : (f, "success") ∉ PFOutcomes.markedOf s)
    (h2 : (f, "failed") ∉ PFOutcomes.markedOf s) :
    ((PFOutcomes.mark_failure a' false f
        (PFOutcomes.mark_success a false f s)).llmCalls f "success"
      = s.llmCalls f "success" + 1
    ∧ (PFOutcomes.mark_failure a' false f
        (PFOutcomes.mark_success a false f s)).llmCalls f "failed"
      = s.llmCalls f "failed" + 1)
  ∧ ((PFOutcomes.mark_success a' false f
        (PFOutcomes.mark_failure a false f s)).llmCalls f "success"
      = s.llmCalls f "success" + 1
    ∧ (PFOutcomes.mark_success a' false f
        (PFOutcomes.mark_failure a false f s)).llmCalls f "failed"
      = s.llmCalls f "failed" + 1) := by
  rw [PFOutcomes.mark_success_eq a f s, PFOutcomes.mark_failure_eq a f s,
    if_neg h1, if_neg h2]
  rw [PFOutcomes.mark_failure_eq, PFOutcomes.mark_success_eq]
  rw [if_neg (by simpa [PFOutcomes.markedOf] using h2),
    if_neg (by simpa [PFOutcomes.markedOf] using h1)]
  refine ⟨⟨?_, ?_⟩, ?_, ?_⟩ <;> simp [bumpCalls]

/-- Witness for claim C5 at `f = "fetch_posts"` from the start state. -/
theorem claim_C5_witness :
    ((PFOutcomes.mark_failure true false "fetch_posts"
        (PFOutcomes.mark_success false false "fetch_posts"
          trackerStart)).llmCalls "fetch_posts" "success"
      = trackerStart.llmCalls "fetch_posts" "success" + 1
    ∧ (PFOutcomes.mark_failure true false "fetch_posts"
        (PFOutcomes.mark_success false false "fetch_posts"
          trackerStart)).llmCalls "fetch_posts" "failed"
      = trackerStart.llmCalls "fetch_posts" "failed" + 1)
  ∧ ((PFOutcomes.mark_success true false "fetch_posts"
        (PFOutcomes.mark_failure false false "fetch_posts"
          trackerStart)).llmCalls "fetch_posts" "success"
      = trackerStart.llmCalls "fetch_posts" "success" + 1
    ∧ (PFOutcomes.mark_success true false "fetch_posts"
        (PFOutcomes.mark_failure false false "fetch_posts"
          trackerStart)).llmCalls "fetch_posts" "failed"
      = trackerStart.llmCalls "fetch_posts" "failed" + 1) :=
  claim_C5_different_outcomes_both_land false true "fetch_posts" trackerStart
    (by simp [trackerStart, PFOutcomes.markedOf])
    (by simp [trackerStart, PFOutcomes.markedOf])

/-- Claim C2: `mark_success`, `mark_failure`, `mark_latency` and
`reset_outcome` always return normally — in both variants, for every execution
context and even when the underlying instrument update raises (`inc`/`obs`
oracles `true`): every outcome is an `.ok`, never an uncaught `.error`. -/
theorem claim_C2_marks_never_raise (a inc obs : Bool) (f : String) (d : ℚ)
    (s : PFOutcomes.TrackerState) (t : VAOutcomes.VaState) :
    (∃ s1, PFOutcomes.mark_successE a inc f s = .ok s1)
  ∧ (∃ s2, PFOutcomes.mark_failureE a inc f s = .ok s2)
  ∧ (∃ s3, PFOutcomes.mark_latencyE a obs f d s = .ok s3)
  ∧ (∃ s4, PFOutcomes.reset_outcomeE a s = .ok s4)
  ∧ (∃ t1, VAOutcomes.mark_successE inc f t = .ok t1)
  ∧ (∃ t2, VAOutcomes.mark_failureE inc f t = .ok t2)
  ∧ (∃ t3, VAOutcomes.mark_latencyE obs f d t = .ok t3)
  ∧ (∃ t4, VAOutcomes.reset_outcomeE t = .ok t4) :=
  ⟨tryPass_ok _ s, tryPass_ok _ s, tryPass_ok _ s, tryPass_ok _ s,
   tryPass_ok _ t, tryPass_ok _ t, tryPass_ok _ t, ⟨t, rfl⟩⟩

/-- Claim C9: in the vm-agents variant, `mark_success(f)` and
`mark_failure(f)` increment their series unconditionally — `n` calls yield
exactly `n` increments for every `n` — and `reset_outcome()` leaves the whole
state untouched. -/
theorem claim_C9_va_unconditional_marks (n : Nat) (f : String)
    (t : VAOutcomes.VaState) :
    ((VAOutcomes.mark_success false f)^[n] t).llmCalls f "success"
      = t.llmCalls f "success" + n
  ∧ ((VAOutcomes.mark_failure false f)^[n] t).llmCalls f "failure"
      = t.llmCalls f "failure" + n
  ∧ VAOutcomes.reset_outcome t = t := by
  refine ⟨?_, ?_, rfl⟩
  · induction n with
    | zero => rfl
    | succ k ih =>
        rw [Function.iterate_succ_apply', VAOutcomes.va_mark_success_eq]
        simp only [bumpCalls_same, ih]
        omega
  · induction n with
    | zero => rfl
    | succ k ih =>
        rw [Function.iterate_succ_apply', VAOutcomes.va_mark_failure_eq]
        simp only [bumpCalls_same, ih]
        omega

/-- Claim C10: the async-context branch and the sync-context branch of the
four `prometheus-functions` outcome operations are the same, so each
operation's observable behaviour (resulting state and exception outcome) does
not depend on what `_is_async_context()` returned. -/
theorem claim_C10_context_branch_is_dead (a b inc obs : Bool) (f : String)
    (d : ℚ) (s : PFOutcomes.TrackerState) :
    PFOutcomes.mark_successE a inc f s = PFOutcomes.mark_successE b inc f s
  ∧ PFOutcomes.mark_failureE a inc f s = PFOutcomes.mark_failureE b inc f s
  ∧ PFOutcomes.mark_latencyE a obs f d s = PFOutcomes.mark_latencyE b obs f d s
  ∧ PFOutcomes.reset_outcomeE a s = PFOutcomes.reset_outcomeE b s := by
  refine ⟨?_, ?_, ?_, ?_⟩ <;> cases a <;> cases b <;> rfl

/-- A request whose handler raises: `GET /boom`, no matched route. -/
def reqBoom : ScopeReq :=
  { method := "GET", route := none, scopePath := some "/boom",
    urlPath := "/boom" }

/-- The all-zero three-label counter family. -/
def zero3 : String → String → String → Nat := fun _ _ _ => 0

/-- Counterexample to claim C3 as stated: the claim quantifies over "the
counter middleware", whose cited implementations include
`CounterMiddleware.dispatch` of `src/vm-agents/app/prometheus/prometheus.py`;
for the concrete failing request `GET /boom` that variant leaves the
`status_code="500"` series of the total-requests counter unchanged (there is
no `try` block, the exception propagates before any increment). -/
theorem claim_C3_counterexample :
    ¬ ((VAProm.counterDispatch reqBoom (.error (PyErr.exc "boom")) zero3).1
        "GET" "/boom" "500"
      = zero3 "GET" "/boom" "500" + 1) := by
  simp [VAProm.counterDispatch, zero3]

/-- Claim C3, amended: for every request whose inner handler raises, the
`prometheus-functions` `CounterMiddleware` increments the total-requests
counter exactly once, on the series labeled with the request method, the
normalized endpoint and status code `"500"` (all other series unchanged), and
re-raises the original exception unchanged; the vm-agents `CounterMiddleware`
records no increment at all on that path and propagates the exception
unchanged. -/
theorem claim_C3_amended_counter_on_unhandled_failure (req : ScopeReq)
    (e : PyErr) (c : String → String → String → Nat) :
    (∀ m ep sc,
      (PFProm.counterDispatch false req (.error e) c).1 m ep sc =
        if m = req.method ∧ ep = getNormalizedEndpoint req ∧ sc = "500"
        then c m ep sc + 1 else c m ep sc)
  ∧ (PFProm.counterDispatch false req (.error e) c).2 = .error e
  ∧ (VAProm.counterDispatch req (.error e) c).1 = c
  ∧ (VAProm.counterDispatch req (.error e) c).2 = .error e := by
  refine ⟨fun m ep sc => ?_, rfl, rfl, rfl⟩
  simp [PFProm.counterDispatch, bump3]

/-- Claim C4: the `prometheus-functions` `GaugeMiddleware` pairs its single
increment with a single `finally` decrement whether the inner handler returns
or raises, so the active-requests gauge ends at its pre-request value; but
`PrometheusMiddleware.dispatch` of `src/vm_agents/api.py` — also cited by the
claim — decrements twice on the raising path (once in `except`, once in
`finally`), ending one below the pre-request value at the failing input
`GET /x` whose handler raises. -/
theorem claim_C4_gauge_balance_and_api_double_decrement :
    (∀ (inner : Except PyErr Response) (g : String → Int),
      (PFProm.gaugeDispatch false false inner g).1 "all" = g "all"
      ∧ (PFProm.gaugeDispatch false false inner g).2 = inner)
  ∧ ((ApiMw.dispatch
        { method := "GET", route := none, scopePath := some "/x",
          urlPath := "/x" }
        (.error (PyErr.exc "boom")) 0
        { active := fun _ => 0, requestTotal := zero3,
          durations := fun _ _ => [] }).1.active "/x"
      = (0 : Int) - 1) := by
  refine ⟨fun inner g => ⟨?_, rfl⟩, ?_⟩
  · simp [PFProm.gaugeDispatch, bumpGauge]
  · simp [ApiMw.dispatch, bumpGauge]

/-- Claim C7: the endpoint label equals the matched route template whenever
the router attached a route (with its `path` attribute) to the request scope,
and equals the raw scope path (query string is not part of the ASGI scope
path) when no route matched.  `req1` is a request with a matched route whose
template is `p`; `req2` one where no route matched. -/
theorem claim_C7_endpoint_is_route_template (req1 : ScopeReq) (r : Route)
    (p : String) (h1 : req1.route = some r) (h2 : r.path = some p)
    (req2 : ScopeReq) (h3 : req2.route = none) :
    getNormalizedEndpoint req1 = p
  ∧ getNormalizedEndpoint req2 = req2.scopePath.getD "/" := by
  constructor
  · simp [getNormalizedEndpoint, h1, h2]
  · simp [getNormalizedEndpoint, h3]

/-- A request matched to the route template `/user/{user_id}`. -/
def reqMatched : ScopeReq :=
  { method := "GET", route := some { path := some "/user/{user_id}" },
    scopePath := some "/user/123", urlPath := "/user/123" }

/-- A request no route matched (a 404 path). -/
def reqUnmatched : ScopeReq :=
  { method := "GET", route := none, scopePath := some "/nope",
    urlPath := "/nope" }

/-- Witness for claim C7: the matched request resolves to its template, the
unmatched one to its raw path. -/
theorem claim_C7_witness :
    getNormalizedEndpoint reqMatched = "/user/{user_id}"
  ∧ getNormalizedEndpoint reqUnmatched = reqUnmatched.scopePath.getD "/" :=
  claim_C7_endpoint_is_route_template reqMatched
    { path := some "/user/{user_id}" } "/user/{user_id}" rfl rfl
    reqUnmatched rfl

/-- Incrementing a counter of one registry leaves every other registry value
untouched (each `CollectorRegistry()` owns its own instrument storage). -/
theorem SpecReg.runIncB_regA (ops : List (String × String))
    (st : SpecReg.TwoRegs) : (SpecReg.runIncB ops st).regA = st.regA := by
  induction ops generalizing st with
  | nil => rfl
  | cons p rest ih =>
      rw [SpecReg.runIncB, List.foldl_cons]
      exact ih (SpecReg.incB p.1 p.2 st)

/-- A registry holding one counter named `llm_calls_total` with no series yet,
as `src/vm_agents/prometheus/functions.py` declares on its local registry. -/
def SpecReg.llmReg : SpecReg.Registry := ⟨[("llm_calls_total", [])]⟩

/-- Two isolated registries that both hold a counter named `llm_calls_total`. -/
def SpecReg.twoLlmRegs : SpecReg.TwoRegs := ⟨SpecReg.llmReg, SpecReg.llmReg⟩

/-- Claim C6: for two distinct registries A and B, any sequence of counter
increments against instruments registered in B leaves the collected output of
A unchanged, even when A and B hold instruments with the same metric name —
and the increments do land in B (B's collected output changes), so the frame
property is not vacuous. -/
theorem claim_C6_registry_isolation (st : SpecReg.TwoRegs)
    (ops : List (String × String)) :
    SpecReg.collect (SpecReg.runIncB ops st).regA = SpecReg.collect st.regA
  ∧ SpecReg.collect
        (SpecReg.runIncB [("llm_calls_total", "success")]
          SpecReg.twoLlmRegs).regA
      = SpecReg.collect SpecReg.twoLlmRegs.regA
  ∧ SpecReg.collect
        (SpecReg.runIncB [("llm_calls_total", "success")]
          SpecReg.twoLlmRegs).regB
      ≠ SpecReg.collect SpecReg.twoLlmRegs.regB := by
  refine ⟨?_, ?_, ?_⟩
  · unfold SpecReg.collect
    rw [SpecReg.runIncB_regA]
  · rfl
  · decide

/-- Claim C8: `Histogram.observe(v)` on a histogram with a fixed, strictly
increasing bound sequence increments the cumulative count of every bucket
whose bound is `≥ v` by exactly one, leaves every bucket whose bound is `< v`
unchanged, adds exactly `v` to the running sum and exactly `1` to the total
count.  `i` ranges over the bucket positions; `hlen` says the counts are
positionally aligned with the bounds. -/
theorem claim_C8_histogram_observe (v : ℚ) (h : SpecHist.Hist) (i : Nat)
    (hlen : h.bucketCounts.length = h.bounds.length)
    (hmono : List.Chain' (· < ·) h.bounds)
    (hi : i < h.bounds.length) :
    ((SpecHist.observe v h).bucketCounts.getD i 0 =
      if v ≤ h.bounds.getD i 0 then h.bucketCounts.getD i 0 + 1
      else h.bucketCounts.getD i 0)
  ∧ (SpecHist.observe v h).sum = h.sum + v
  ∧ (SpecHist.observe v h).count = h.count + 1 := by
  refine ⟨?_, rfl, rfl⟩
  have hi' : i < h.bucketCounts.length := by omega
  have hz : i < (List.zipWith (fun b c => if v ≤ b then c + 1 else c)
      h.bounds h.bucketCounts).length := by
    rw [List.length_zipWith]; omega
  rw [SpecHist.observe]
  rw [List.getD_eq_getElem _ _ hz, List.getD_eq_getElem _ _ hi,
    List.getD_eq_getElem _ _ hi', List.getElem_zipWith]

/-- A fresh `LLM_LATENCY` histogram series (buckets
`0.1, 0.5, 1.0, 2.5, 5.0, 7.0, 10.0`). -/
def llmFresh : SpecHist.Hist := SpecHist.freshHist SpecHist.llmLatencyBuckets

/-- The same series after `observe(0.5)`. -/
def llmAfter : SpecHist.Hist := SpecHist.observe (1/2) llmFresh

/-- Witness for claim C8: observing `v = 1/2` seconds on a fresh
`LLM_LATENCY` histogram, looking at bucket position 2 (bound `1.0 >= 1/2`). -/
theorem claim_C8_witness :
    (llmAfter.bucketCounts.getD 2 0 =
      if (1/2 : ℚ) ≤ llmFresh.bounds.getD 2 0
      then llmFresh.bucketCounts.getD 2 0 + 1
      else llmFresh.bucketCounts.getD 2 0)
  ∧ llmAfter.sum = llmFresh.sum + 1/2
  ∧ llmAfter.count = llmFresh.count + 1 :=
  claim_C8_histogram_observe (1/2) llmFresh 2
    (by simp [llmFresh, SpecHist.freshHist])
    (by simp [llmFresh, SpecHist.freshHist, SpecHist.llmLatencyBuckets]; norm_num)
    (by simp [llmFresh, SpecHist.freshHist, SpecHist.llmLatencyBuckets])

/-- The two bucket declarations of the repository are strictly increasing, as
claim C8 requires of the histograms the code creates. -/
theorem repo_buckets_strictly_increasing :
    List.Chain' (· < ·) SpecHist.llmLatencyBuckets
  ∧ List.Chain' (· < ·) SpecHist.requestDurationBuckets := by
  constructor <;>
    · simp [SpecHist.llmLatencyBuckets, SpecHist.requestDurationBuckets,
        List.chain'_cons]
      norm_num
